import Mathlib

/-!
Verification of the leptos-sweetalert popup library.

This file gives a shallow embedding, in Lean, of the parts of the crate that
the verified properties are about:

* the result model (`SwalResult` and its three factories, from
  `src/lib.rs` and `src/swal_result.rs`),
* the icon model (`SwalIcon`, the `SwalIconLike` capability and its default
  `is_defined` method, from `src/swal_icon.rs`),
* the options model (`SwalOptions`, from `src/lib.rs`),
* the alert lifecycle controller (`Swal::fire`, `Swal::open`, `Swal::close`,
  `Swal::get_transition_duration`, the escape-key handler and the three
  button handlers of `SwalComponent`, from `src/lib.rs`).

Modelling conventions:

* The controller's thread-local cells (`TRANSITION_DURATION`,
  `THEN_CALLBACK`, `AUTO_CLOSE`), the set of popup nodes currently attached
  to the document, the queue of `set_timeout` callbacks and the current time
  are gathered in an explicit state record `St`; every stateful function of
  the crate becomes a function from `St` to an `Outcome`, which carries the
  return value (`none` encodes a Rust panic via `expect`/`unwrap`), the new
  state, and a trace of the callback invocations and DOM transitions the
  call performed.
* Rust function values (`fn()`, `fn(SwalResult)`) are opaque to the
  controller: they are represented by numeric tags, and "invoking" one
  appends an event to the trace.  Re-entrant callbacks (a `then` hook that
  itself calls `fire`/`close`) are outside this model.
* `f32` second values are modelled as exact fractions (`Dur`, an integer
  numerator/denominator pair; core `Rat` arithmetic does not reduce inside
  the kernel).  `set_timeout` delays become exact rational deadlines; the
  rounding of `f32` arithmetic is irrelevant to every ordering considered
  here.
* `document.get_element_by_id("swal")` returns the first element in
  document order whose id matches, i.e. the head of the list of mounted
  popups (they are appended to `body` in mount order).
* The computed `transition-duration` style of the popup is a fixed parameter
  of the semantics (`style`): `.ok s` means the property read yields the
  string `s`, `.error ()` means the read fails.  The stylesheet is static,
  so one fixed value per run is faithful.
-/

namespace LeptosSweetalert

/-! ## Exact fractions standing in for `f32` seconds -/

/-- Rational number `num / den` with the denominator kept positive by
construction.  Used to model `f32` second values (durations, timer
deadlines) exactly. -/
structure Dur where
  num : Int
  den : Int
deriving DecidableEq

/-- Embed an integer. -/
def Dur.ofInt (n : Int) : Dur := ⟨n, 1⟩

/-- Exact rational addition (no normalisation needed for our purposes). -/
def Dur.add (a b : Dur) : Dur := ⟨a.num * b.den + b.num * a.den, a.den * b.den⟩

/-- Value equality of fractions (cross multiplication), the model of
`f32` equality `==`. -/
def Dur.beq (a b : Dur) : Bool := a.num * b.den == b.num * a.den

/-- Value ordering of fractions (cross multiplication, denominators are
positive by construction), the model of `f32` ordering. -/
def Dur.ble (a b : Dur) : Bool := decide (a.num * b.den ≤ b.num * a.den)

/-- The larger of two fractions. -/
def Dur.fmax (a b : Dur) : Dur := if a.ble b then b else a

/-- The sentinel `-1.0` stored in `TRANSITION_DURATION` before the duration
has been computed. -/
def durNegOne : Dur := Dur.ofInt (-1)

/-- The fixed `0.01` second delay used by `Swal::fire` and `Swal::open`. -/
def durCentisec : Dur := ⟨1, 100⟩

/-! ## Result model (`SwalDismissReason`, `SwalResult`)

From `src/swal_dismiss_reason.rs` / `src/swal_result.rs`; `src/lib.rs`
contains the same definitions verbatim. -/

/-- The reasons why an alert has been closed (`enum SwalDismissReason`). -/
inductive SwalDismissReason
  | Backdrop
  | Cancel
  | Close
  | Esc
deriving DecidableEq

/-- The data that is returned when an alert is closed (`struct SwalResult`).
Fields are in source declaration order. -/
structure SwalResult where
  is_confirmed : Bool
  is_denied : Bool
  is_dismissed : Bool
  value : Bool
  dismiss : Option SwalDismissReason
deriving DecidableEq

/-- `SwalResult::confirmed()`. -/
def SwalResult.confirmed : SwalResult :=
  { is_confirmed := true
    value := true
    is_denied := false
    is_dismissed := false
    dismiss := none }

/-- `SwalResult::denied()`. -/
def SwalResult.denied : SwalResult :=
  { is_confirmed := false
    value := false
    is_denied := true
    is_dismissed := false
    dismiss := none }

/-- `SwalResult::canceled(reason)`. -/
def SwalResult.canceled (reason : SwalDismissReason) : SwalResult :=
  { is_confirmed := false
    value := false
    is_denied := false
    is_dismissed := true
    dismiss := some reason }

/-! ## Icon model (`SwalIcon`, `SwalIconLike`) from `src/swal_icon.rs` -/

/-- `struct SwalIcon(&'static str)`. -/
structure SwalIcon where
  name : String
deriving DecidableEq

/-- `SwalIcon::INFO`. -/
def SwalIcon.INFO : SwalIcon := ⟨"info"⟩

/-- `SwalIcon::ERROR`. -/
def SwalIcon.ERROR : SwalIcon := ⟨"error"⟩

/-- `SwalIcon::SUCCESS`. -/
def SwalIcon.SUCCESS : SwalIcon := ⟨"success"⟩

/-- `SwalIcon::WARNING`. -/
def SwalIcon.WARNING : SwalIcon := ⟨"warning"⟩

/-- `SwalIcon::QUESTION`. -/
def SwalIcon.QUESTION : SwalIcon := ⟨"question"⟩

/-- `SwalIcon::NONE`. -/
def SwalIcon.NONE : SwalIcon := ⟨"NONE"⟩

/-- The `impl SwalIconLike for SwalIcon` override:
`fn is_defined(&self) -> bool { self != &SwalIcon::NONE }`. -/
def SwalIcon.is_defined (i : SwalIcon) : Bool := i ≠ SwalIcon.NONE

/-- `impl Default for SwalIcon { fn default() -> Self { SwalIcon::NONE } }`. -/
def SwalIcon.defaultIcon : SwalIcon := SwalIcon.NONE

/-- The `SwalIconLike` capability (trait).  Rendering targets the host DOM
and is not observed by any property here, so the fragment type is collapsed
to `Unit`; the `is_defined` method keeps its default body `true` exactly as
in the trait declaration. -/
structure SwalIconLike (I : Type) where
  get_icon_element : I → Unit
  is_defined : I → Bool := fun _ => true

/-! ## Options model (`SwalOptions`) from `src/lib.rs`

The text type parameter `S` is instantiated at `String`; the `pre_confirm`,
`pre_deny` and `then` function values are represented by numeric tags. -/

/-- `struct SwalOptions<S>` of `src/lib.rs`, fields in source order.
`thenFn` models the field named `then` (a Lean keyword). -/
structure SwalOptions where
  title : String
  text : String
  icon : SwalIcon
  show_confirm_button : Bool
  show_deny_button : Bool
  show_cancel_button : Bool
  confirm_button_text : String
  cancel_button_text : String
  deny_button_text : String
  pre_confirm : Nat
  pre_deny : Nat
  thenFn : Nat
  auto_close : Bool
  animation : Bool
deriving DecidableEq

/-- `impl Default for SwalOptions`: empty texts, no icon, only the confirm
button, no-op callbacks (tag `0`), `auto_close = true`, `animation = true`. -/
def SwalOptions.defaultOptions : SwalOptions :=
  { title := ""
    text := ""
    icon := SwalIcon.defaultIcon
    show_confirm_button := true
    show_deny_button := false
    show_cancel_button := false
    confirm_button_text := ""
    cancel_button_text := ""
    deny_button_text := ""
    pre_confirm := 0
    pre_deny := 0
    thenFn := 0
    auto_close := true
    animation := true }

/-! ## A model of `str::parse::<f32>` on decimal syntax

`Swal::get_transition_duration` parses the computed `transition-duration`
string (with its final unit character stripped) via `str::parse::<f32>`.
The grammar modelled here is the finite-decimal fragment of Rust's float
grammar: optional sign, then either digits with an optional fractional
part or a fractional part alone, then an optional exponent.  The `inf`,
`infinity` and `NaN` forms of the Rust grammar cannot arise as CSS computed
time values and are not modelled; the value is exact where `f32` would
round. -/

/-- Numeric value of a list of decimal digit characters. -/
def digitsVal (cs : List Char) : Nat :=
  cs.foldl (fun a c => 10 * a + (c.toNat - 48)) 0

/-- All characters are decimal digits. -/
def isDigits (cs : List Char) : Bool := cs.all (fun c => c.isDigit)

/-- Strip a leading sign, returning `(negative, rest)`. -/
def splitSign : List Char → Bool × List Char
  | '+' :: t => (false, t)
  | '-' :: t => (true, t)
  | t => (false, t)

/-- Model of `str::parse::<f32>` (see the section comment): `none` is a
parse error (`Err`), `some v` the exact value of the decimal literal. -/
def parseF32 (s : String) : Option Dur :=
  let cs := s.toList
  let mantCs := cs.takeWhile (fun c => !(c == 'e' || c == 'E'))
  let expCs := cs.dropWhile (fun c => !(c == 'e' || c == 'E'))
  let expVal : Option Int :=
    match expCs with
    | [] => some 0
    | _ :: ecs =>
      let p := splitSign ecs
      if p.2 ≠ [] ∧ isDigits p.2 then
        some (if p.1 then -(digitsVal p.2 : Int) else (digitsVal p.2 : Int))
      else none
  match expVal with
  | none => none
  | some e =>
    let m := splitSign mantCs
    let intCs := m.2.takeWhile (fun c => !(c == '.'))
    let fracRest := m.2.dropWhile (fun c => !(c == '.'))
    let fracCs : Option (List Char) :=
      match fracRest with
      | [] => some []
      | _ :: t => if t.all (fun c => !(c == '.')) then some t else none
    match fracCs with
    | none => none
    | some fcs =>
      if (intCs ≠ [] ∨ fcs ≠ []) ∧ isDigits intCs ∧ isDigits fcs then
        let base : Dur :=
          ⟨(digitsVal intCs : Int) * (10 : Int) ^ fcs.length + (digitsVal fcs : Int),
            (10 : Int) ^ fcs.length⟩
        let v : Dur :=
          if e ≥ 0 then ⟨base.num * (10 : Int) ^ e.toNat, base.den⟩
          else ⟨base.num, base.den * (10 : Int) ^ (-e).toNat⟩
        some (if m.1 then ⟨-v.num, v.den⟩ else v)
      else none

/-! ## Controller state

The `Swal` module's ambient state: the three thread-local cells, the popup
nodes currently attached to the document body, the outstanding `set_timeout`
callbacks, and the current time. -/

/-- A mounted `#swal` popup node: its `aria-hidden` attribute and the
options the component was built from (captured by its click handlers). -/
structure Popup where
  ariaHidden : Bool
  opt : SwalOptions
deriving DecidableEq

/-- The three kinds of `set_timeout` callbacks the controller schedules:
the delayed `open` of `fire`, the mark-visible step of `open`, and the
detach step of `close`. -/
inductive Task
  | openTask (opt : SwalOptions)
  | visibleTask
  | removeTask
deriving DecidableEq

/-- A scheduled callback: absolute deadline and task. -/
structure Sched where
  time : Dur
  task : Task
deriving DecidableEq

/-- The controller's ambient state. -/
structure St where
  /-- Popup nodes attached to `body`, in document (mount) order. -/
  popups : List Popup
  /-- Thread-local `TRANSITION_DURATION` (sentinel `-1.0` = not computed). -/
  transition_duration : Dur
  /-- Thread-local `THEN_CALLBACK`. -/
  then_callback : Option Nat
  /-- Thread-local `AUTO_CLOSE`. -/
  auto_close : Bool
  /-- Outstanding `set_timeout` callbacks. -/
  pending : List Sched
  /-- Current time, in seconds. -/
  now : Dur
deriving DecidableEq

/-- Process start: no popup, sentinel duration, no callback,
`AUTO_CLOSE = true`, empty timer queue. -/
def initSt : St :=
  { popups := []
    transition_duration := durNegOne
    then_callback := none
    auto_close := true
    pending := []
    now := Dur.ofInt 0 }

/-- Observable events of one call: callback invocations (by tag) and the
start of the hide transition (`aria-hidden` flipped to `"true"`). -/
inductive Ev
  | preConfirmCall (f : Nat)
  | preDenyCall (f : Nat)
  | thenCall (f : Nat) (r : SwalResult)
  | hideStart
deriving DecidableEq

/-- Result of running one stateful call: return value (`none` models a Rust
panic through `expect`/`unwrap`; effects already performed are kept), the
state after the call, and the trace of events the call emitted. -/
structure Outcome (α : Type) where
  ret : Option α
  st : St
  trace : List Ev
deriving DecidableEq

/-- Recognizer for `then`-callback invocation events. -/
def isThenCall : Ev → Bool
  | Ev.thenCall _ _ => true
  | _ => false

namespace Swal

/-- `get_swal()`: `document.get_element_by_id("swal")`, the first mounted
popup in document order. -/
def get_swal (s : St) : Option Popup := s.popups.head?

/-- `is_swal_open()`. -/
def is_swal_open (s : St) : Bool := (get_swal s).isSome

/-- Set the `aria-hidden` attribute of the element `get_swal` returns. -/
def setSwalHidden (b : Bool) (s : St) : St :=
  match s.popups with
  | [] => s
  | p :: rest => { s with popups := { p with ariaHidden := b } :: rest }

/-- `Element::remove` on the element `get_swal` returns. -/
def removeSwal (s : St) : St :=
  match s.popups with
  | [] => s
  | _ :: rest => { s with popups := rest }

/-- `get_transition_duration(el)` of `src/lib.rs:549`.  Takes the computed
`transition-duration` read (`style`) and the current `TRANSITION_DURATION`
cell, and returns `some (value, new cell)` or `none` for a panic:

* cell not `-1.0`: return the memoized value, cell unchanged;
* read fails (`Err`): return `0.0`, cell unchanged (not cached);
* read succeeds: drop the final character (`css_value.get(0..len - 1)`) and
  `parse::<f32>` the rest; on success cache and return it, on failure the
  source `expect`s (panic).  The source also panics when the string is empty
  (index underflow) or the cut falls inside a multi-byte character; both
  collapse into the parse-failure case for the ASCII strings CSS produces. -/
def get_transition_duration (style : Except Unit String) (cell : Dur) :
    Option (Dur × Dur) :=
  if cell.beq durNegOne then
    match style with
    | Except.ok css =>
      match parseF32 (css.take (css.length - 1)) with
      | none => none
      | some v => some (v, v)
    | Except.error _ => some (Dur.ofInt 0, cell)
  else some (cell, cell)

/-- `open(opt)` of `src/lib.rs:449`: build the `SwalComponent` (which stores
`opt.then` into `THEN_CALLBACK` and `opt.auto_close` into `AUTO_CLOSE`),
append it to `body` with `aria-hidden="true"`, and schedule the
mark-visible step `0.01` seconds later. -/
def openPopup (opt : SwalOptions) (s : St) : St :=
  { s with
    then_callback := some opt.thenFn
    auto_close := opt.auto_close
    popups := s.popups ++ [{ ariaHidden := true, opt := opt }]
    pending := s.pending ++ [{ time := s.now.add durCentisec, task := Task.visibleTask }] }

/-- `Swal::fire(opt)` of `src/lib.rs:428`: if a popup is mounted, schedule
`open(opt)` after `0.01 + get_transition_duration(&swal)` seconds (panic of
the duration computation propagates); otherwise `open(opt)` immediately. -/
def fire (style : Except Unit String) (opt : SwalOptions) (s : St) : Outcome Unit :=
  match get_swal s with
  | some _ =>
    match get_transition_duration style s.transition_duration with
    | none => { ret := none, st := s, trace := [] }
    | some (d, c) =>
      { ret := some ()
        st := { s with
          transition_duration := c
          pending := s.pending ++
            [{ time := s.now.add (durCentisec.add d), task := Task.openTask opt }] }
        trace := [] }
  | none => { ret := some (), st := openPopup opt s, trace := [] }

/-- First block of `Swal::close` (`src/lib.rs:508`): if a `then` callback
is stored, invoke it when `result` is `Some`, then clear the slot and reset
`AUTO_CLOSE` to `true`; otherwise do nothing. -/
def closeDispatch (result : Option SwalResult) (s : St) : St × List Ev :=
  match s.then_callback with
  | some f =>
    ({ s with then_callback := none, auto_close := true },
      match result with
      | some r => [Ev.thenCall f r]
      | none => [])
  | none => (s, [])

/-- Second block of `Swal::close` (`src/lib.rs:515`): if a popup is
mounted, set its `aria-hidden` to `"true"` (the hide transition starts) and
schedule its removal after the transition duration, returning `true`;
otherwise return `false`.  The duration computation may panic. -/
def closeHide (style : Except Unit String) (s : St) : Outcome Bool :=
  match get_swal s with
  | some _ =>
    let s2 := setSwalHidden true s
    match get_transition_duration style s2.transition_duration with
    | none => { ret := none, st := s2, trace := [Ev.hideStart] }
    | some (d, c) =>
      { ret := some true
        st := { s2 with
          transition_duration := c
          pending := s2.pending ++ [{ time := s2.now.add d, task := Task.removeTask }] }
        trace := [Ev.hideStart] }
  | none => { ret := some false, st := s, trace := [] }

/-- `Swal::close(result)` of `src/lib.rs:507`: callback dispatch followed
by the transition-aware teardown. -/
def close (style : Except Unit String) (result : Option SwalResult) (s : St) :
    Outcome Bool :=
  let p := closeDispatch result s
  let o := closeHide style p.1
  { ret := o.ret, st := o.st, trace := p.2 ++ o.trace }

/-- The body of the `window_event_listener` closure installed by
`init_escape_key_handler` (`src/lib.rs:484`), applied to one keydown whose
`code()` is `code`. -/
def escape_key_handler (style : Except Unit String) (code : String) (s : St) :
    Outcome Unit :=
  if is_swal_open s then
    if code = "Escape" then
      if s.auto_close then
        let o := close style (some (SwalResult.canceled SwalDismissReason.Esc)) s
        { ret := o.ret.map (fun _ => ()), st := o.st, trace := o.trace }
      else { ret := some (), st := s, trace := [] }
    else { ret := some (), st := s, trace := [] }
  else { ret := some (), st := s, trace := [] }

/-- The `on_confirm` click handler of `SwalComponent` (`src/lib.rs:611`):
run `pre_confirm`; then, only when `auto_close` is set, invoke `then` with
`confirmed()` and call `close(None)`. -/
def on_confirm (style : Except Unit String) (opt : SwalOptions) (s : St) :
    Outcome Unit :=
  let tr0 : List Ev := [Ev.preConfirmCall opt.pre_confirm]
  if opt.auto_close then
    let tr1 := tr0 ++ [Ev.thenCall opt.thenFn SwalResult.confirmed]
    let o := close style none s
    { ret := o.ret.map (fun _ => ()), st := o.st, trace := tr1 ++ o.trace }
  else { ret := some (), st := s, trace := tr0 }

/-- The `on_deny` click handler of `SwalComponent` (`src/lib.rs:612`). -/
def on_deny (style : Except Unit String) (opt : SwalOptions) (s : St) :
    Outcome Unit :=
  let tr0 : List Ev := [Ev.preDenyCall opt.pre_deny]
  if opt.auto_close then
    let tr1 := tr0 ++ [Ev.thenCall opt.thenFn SwalResult.denied]
    let o := close style none s
    { ret := o.ret.map (fun _ => ()), st := o.st, trace := tr1 ++ o.trace }
  else { ret := some (), st := s, trace := tr0 }

/-- The `on_cancel` click handler of `SwalComponent` (`src/lib.rs:613`):
invoke `then` with `canceled(Cancel)` unconditionally; call `close(None)`
only when `auto_close` is set. -/
def on_cancel (style : Except Unit String) (opt : SwalOptions) (s : St) :
    Outcome Unit :=
  let tr0 : List Ev := [Ev.thenCall opt.thenFn (SwalResult.canceled SwalDismissReason.Cancel)]
  if opt.auto_close then
    let o := close style none s
    { ret := o.ret.map (fun _ => ()), st := o.st, trace := tr0 ++ o.trace }
  else { ret := some (), st := s, trace := tr0 }

/-! ### The timer queue

`set_timeout` callbacks run on the browser event loop in deadline order
(ties in scheduling order).  `runNext` executes the earliest outstanding
callback; external calls (`fire`, `close`, clicks, keydowns) may run at any
point before the next outstanding deadline. -/

/-- Pick the scheduled callback with the earliest deadline (first among
ties), returning it and the remaining queue. -/
def findEarliest : List Sched → Option (Sched × List Sched)
  | [] => none
  | p :: rest =>
    match findEarliest rest with
    | none => some (p, [])
    | some (q, qs) => if p.time.ble q.time then some (p, rest) else some (q, p :: qs)

/-- Run one scheduled callback body. -/
def runTask (_style : Except Unit String) (t : Task) (s : St) : Outcome Unit :=
  match t with
  | Task.openTask opt => { ret := some (), st := openPopup opt s, trace := [] }
  | Task.visibleTask =>
    match get_swal s with
    | some _ => { ret := some (), st := setSwalHidden false s, trace := [] }
    | none => { ret := none, st := s, trace := [] }
  | Task.removeTask =>
    match get_swal s with
    | some _ => { ret := some (), st := removeSwal s, trace := [] }
    | none => { ret := some (), st := s, trace := [] }

/-- Advance the event loop by one timer: run the earliest outstanding
`set_timeout` callback, moving the clock to its deadline. -/
def runNext (style : Except Unit String) (s : St) : Outcome Unit :=
  match findEarliest s.pending with
  | none => { ret := some (), st := s, trace := [] }
  | some (p, rest) =>
    runTask style p.task { s with pending := rest, now := s.now.fmax p.time }

end Swal

/-- An external call arriving at absolute time `t` (the host's clock moves
forward between event-loop turns). -/
def advanceTo (t : Dur) (s : St) : St := { s with now := t }

/-- A sequence of host `Swal::close` calls: the list of `result` arguments,
applied in order; yields the list of return values and the final state. -/
def closeSeq (style : Except Unit String) :
    List (Option SwalResult) → St → List (Option Bool) × St
  | [], s => ([], s)
  | r :: rest, s =>
    let o := Swal.close style r s
    let p := closeSeq style rest o.st
    (o.ret :: p.1, p.2)

/-- `n` consecutive clicks of the cancel button of a popup built from
`opt`; yields the final state and the concatenated trace. -/
def cancelClicks (style : Except Unit String) (opt : SwalOptions) :
    Nat → St → St × List Ev
  | 0, s => (s, [])
  | n + 1, s =>
    let o := Swal.on_cancel style opt s
    let p := cancelClicks style opt n o.st
    (p.1, o.trace ++ p.2)

/-! ## Concrete runs

Executions of the model used by the witnesses and counterexamples below.
The stylesheet gives the popup a one-second close transition
(`transition-duration: 1s`). -/

/-- Computed `transition-duration` style of the demo stylesheet. -/
def styleA : Except Unit String := Except.ok "1s"

/-- A first alert; its `then` callback is the function tagged `1`. -/
def optA : SwalOptions := { SwalOptions.defaultOptions with thenFn := 1 }

/-- A second alert; its `then` callback is the function tagged `2`. -/
def optB : SwalOptions := { SwalOptions.defaultOptions with thenFn := 2 }

/-- An alert with `auto_close := false`; `pre_confirm` is tagged `9`,
`then` is tagged `7`. -/
def optNC : SwalOptions :=
  { SwalOptions.defaultOptions with auto_close := false, pre_confirm := 9, thenFn := 7 }

/-- Time `0`: `fire(optA)` on a fresh process; no popup is mounted, so
`open` runs immediately. -/
def sOpenA : St := (Swal.fire styleA optA initSt).st

/-- Time `0`: `fire(optNC)` on a fresh process. -/
def sOpenNC : St := (Swal.fire styleA optNC initSt).st

/-- Time `0`: a first `close(None)` while `optA`'s popup is mounted; it
hides the popup and schedules its detach at time `1`. -/
def c3_s2 : St := (Swal.close styleA none sOpenA).st

/-- Time `0`: `fire(optB)` while `optA`'s popup is still mounted; the new
`open` is scheduled at time `1.01`. -/
def c3_s3 : St := (Swal.fire styleA optB c3_s2).st

/-- Time `0.01`: the mark-visible timer of `optA`'s popup runs. -/
def c3_s4 : St := (Swal.runNext styleA c3_s3).st

/-- Time `0.03`: a second `close(None)`; the popup is still mounted (its
detach timer is due at time `1`), so `close` returns `true` again and
schedules a second detach at time `1.03`. -/
def c3_s5 : St := (Swal.close styleA none (advanceTo ⟨3, 100⟩ c3_s4)).st

/-- Time `1`: the first detach timer removes `optA`'s popup. -/
def c3_s6 : St := (Swal.runNext styleA c3_s5).st

/-- Time `1.01`: the deferred `open(optB)` mounts the new popup and stores
its `then` callback. -/
def c3_s7 : St := (Swal.runNext styleA c3_s6).st

/-- Time `1.02`: `optB`'s popup is marked visible. -/
def c3_s8 : St := (Swal.runNext styleA c3_s7).st

/-- Time `1.03`: the stale second detach timer removes `optB`'s popup even
though it was never closed; its `then` callback stays stored.  No popup is
mounted but `THEN_CALLBACK` is `Some`. -/
def c3_s9 : St := (Swal.runNext styleA c3_s8).st

/-- Time `0`: `fire(optB)` while `optA`'s popup is mounted and not closing;
the new `open` is scheduled at time `1.01` but nothing ever detaches the
first popup. -/
def c6_s2 : St := (Swal.fire styleA optB sOpenA).st

/-- Time `0.01`: `optA`'s popup is marked visible. -/
def c6_s3 : St := (Swal.runNext styleA c6_s2).st

/-- Time `1.01`: the deferred `open(optB)` appends a second `#swal` node
while `optA`'s popup is still attached. -/
def c6_s4 : St := (Swal.runNext styleA c6_s3).st

/-! ## Helper lemmas on the two blocks of `close` -/

theorem closeDispatch_none_cb (result : Option SwalResult) (s : St)
    (h : s.then_callback = none) : Swal.closeDispatch result s = (s, []) := by
  simp [Swal.closeDispatch, h]

theorem closeDispatch_some_cb (result : Option SwalResult) (s : St) (f : Nat)
    (h : s.then_callback = some f) :
    Swal.closeDispatch result s =
      ({ s with then_callback := none, auto_close := true },
        match result with
        | some r => [Ev.thenCall f r]
        | none => []) := by
  simp [Swal.closeDispatch, h]

theorem closeHide_not_mounted (style : Except Unit String) (s : St)
    (h : s.popups = []) :
    Swal.closeHide style s = { ret := some false, st := s, trace := [] } := by
  simp [Swal.closeHide, Swal.get_swal, h]

theorem closeHide_mounted (style : Except Unit String) (s : St) (p : Popup)
    (rest : List Popup) (d c : Dur)
    (hp : s.popups = p :: rest)
    (hd : Swal.get_transition_duration style s.transition_duration = some (d, c)) :
    Swal.closeHide style s =
      { ret := some true
        st := { s with
          popups := { p with ariaHidden := true } :: rest
          transition_duration := c
          pending := s.pending ++ [{ time := s.now.add d, task := Task.removeTask }] }
        trace := [Ev.hideStart] } := by
  simp [Swal.closeHide, Swal.get_swal, Swal.setSwalHidden, hp, hd]

theorem closeHide_cells (style : Except Unit String) (s : St) :
    (Swal.closeHide style s).st.then_callback = s.then_callback ∧
    (Swal.closeHide style s).st.auto_close = s.auto_close := by
  cases hp : s.popups with
  | nil => simp [Swal.closeHide, Swal.get_swal, hp]
  | cons p rest =>
    cases hd : Swal.get_transition_duration style s.transition_duration with
    | none => simp [Swal.closeHide, Swal.get_swal, Swal.setSwalHidden, hp, hd]
    | some dc =>
      obtain ⟨d, c⟩ := dc
      simp [Swal.closeHide, Swal.get_swal, Swal.setSwalHidden, hp, hd]

theorem closeHide_no_thenCall (style : Except Unit String) (s : St) :
    (Swal.closeHide style s).trace.filter isThenCall = [] := by
  cases hp : s.popups with
  | nil => simp [Swal.closeHide, Swal.get_swal, hp]
  | cons p rest =>
    cases hd : Swal.get_transition_duration style s.transition_duration with
    | none => simp [Swal.closeHide, Swal.get_swal, Swal.setSwalHidden, hp, hd, isThenCall]
    | some dc =>
      obtain ⟨d, c⟩ := dc
      simp [Swal.closeHide, Swal.get_swal, Swal.setSwalHidden, hp, hd, isThenCall]

theorem close_unmounted_eq (style : Except Unit String) (result : Option SwalResult)
    (s : St) (h1 : s.popups = []) (h2 : s.then_callback = none) :
    Swal.close style result s = { ret := some false, st := s, trace := [] } := by
  simp [Swal.close, closeDispatch_none_cb result s h2, closeHide_not_mounted style s h1]

theorem close_none_trace (style : Except Unit String) (s : St) :
    (Swal.close style none s).trace = [] ∨
    (Swal.close style none s).trace = [Ev.hideStart] := by
  have hh := closeHide_no_thenCall style (Swal.closeDispatch none s).1
  have htr : (Swal.close style none s).trace = (Swal.closeDispatch none s).2 ++
      (Swal.closeHide style (Swal.closeDispatch none s).1).trace := by
    simp [Swal.close]
  have hdp : (Swal.closeDispatch none s).2 = [] := by
    cases hc : s.then_callback with
    | none => simp [Swal.closeDispatch, hc]
    | some f => simp [Swal.closeDispatch, hc]
  rw [htr, hdp, List.nil_append]
  cases hp : (Swal.closeDispatch none s).1.popups with
  | nil => simp [closeHide_not_mounted style _ hp]
  | cons p rest =>
    cases hd : Swal.get_transition_duration style
        (Swal.closeDispatch none s).1.transition_duration with
    | none =>
      simp [Swal.closeHide, Swal.get_swal, Swal.setSwalHidden, hp, hd]
    | some dc =>
      obtain ⟨d, c⟩ := dc
      simp [Swal.closeHide, Swal.get_swal, Swal.setSwalHidden, hp, hd]

/-! ## Claim C8 -/

/-- Exactly one of the three outcome flags is set. -/
def exclusiveFlags (r : SwalResult) : Bool :=
  (r.is_confirmed && !r.is_denied && !r.is_dismissed) ||
  (!r.is_confirmed && r.is_denied && !r.is_dismissed) ||
  (!r.is_confirmed && !r.is_denied && r.is_dismissed)

/-- C8: every `SwalResult` built by the three factories has exactly one of
`is_confirmed`, `is_denied`, `is_dismissed` set, has `value` equal to
`is_confirmed`, and carries a `dismiss` reason iff it is dismissed;
`confirmed()`, `denied()` and `canceled(r)` produce exactly the field
assignments the specification lists. -/
theorem C8_result_factories (reason : SwalDismissReason) :
    SwalResult.confirmed =
      { is_confirmed := true, is_denied := false, is_dismissed := false,
        value := true, dismiss := none } ∧
    SwalResult.denied =
      { is_confirmed := false, is_denied := true, is_dismissed := false,
        value := false, dismiss := none } ∧
    SwalResult.canceled reason =
      { is_confirmed := false, is_denied := false, is_dismissed := true,
        value := false, dismiss := some reason } ∧
    exclusiveFlags SwalResult.confirmed = true ∧
    exclusiveFlags SwalResult.denied = true ∧
    exclusiveFlags (SwalResult.canceled reason) = true ∧
    SwalResult.confirmed.value = SwalResult.confirmed.is_confirmed ∧
    SwalResult.denied.value = SwalResult.denied.is_confirmed ∧
    (SwalResult.canceled reason).value = (SwalResult.canceled reason).is_confirmed ∧
    SwalResult.confirmed.dismiss.isSome = SwalResult.confirmed.is_dismissed ∧
    SwalResult.denied.dismiss.isSome = SwalResult.denied.is_dismissed ∧
    (SwalResult.canceled reason).dismiss.isSome = (SwalResult.canceled reason).is_dismissed :=
  ⟨rfl, rfl, rfl, rfl, rfl, rfl, rfl, rfl, rfl, rfl, rfl, rfl⟩

/-! ## Claim C9 -/

/-- C9: `is_defined` is `false` exactly for the `NONE` icon, which is also
the default; it is `true` for the five other built-in icons; and a custom
icon type using the capability's default `is_defined` implementation
reports `true` on every value. -/
theorem C9_icon_is_defined :
    (∀ i : SwalIcon, i.is_defined = false ↔ i = SwalIcon.NONE) ∧
    SwalIcon.defaultIcon = SwalIcon.NONE ∧
    SwalIcon.NONE.is_defined = false ∧
    SwalIcon.INFO.is_defined = true ∧
    SwalIcon.ERROR.is_defined = true ∧
    SwalIcon.SUCCESS.is_defined = true ∧
    SwalIcon.WARNING.is_defined = true ∧
    SwalIcon.QUESTION.is_defined = true ∧
    (∀ (I : Type) (ge : I → Unit) (i : I),
      ({ get_icon_element := ge } : SwalIconLike I).is_defined i = true) := by
  refine ⟨fun i => ?_, rfl, by decide, by decide, by decide, by decide, by decide,
    by decide, fun I ge i => rfl⟩
  simp [SwalIcon.is_defined]

/-! ## Claim C5 -/

/-- C5 (amended): `get_transition_duration` returns the memoized duration
when the cell is not the `-1.0` sentinel; otherwise, when the style read
fails it returns `0` without caching; when the style read succeeds it
strips the final character and parses the rest, caching and returning the
value on success — but on a parse failure it panics instead of returning
`0`. -/
theorem C5_get_duration (style : Except Unit String) (cell : Dur) :
    (cell.beq durNegOne = false →
      Swal.get_transition_duration style cell = some (cell, cell)) ∧
    (∀ css, style = Except.ok css →
      (∀ v, parseF32 (css.take (css.length - 1)) = some v →
        Swal.get_transition_duration style durNegOne = some (v, v)) ∧
      (parseF32 (css.take (css.length - 1)) = none →
        Swal.get_transition_duration style durNegOne = none)) ∧
    (style = Except.error () →
      Swal.get_transition_duration style durNegOne = some (Dur.ofInt 0, durNegOne)) := by
  have hbeq : durNegOne.beq durNegOne = true := by decide
  refine ⟨fun h => ?_, fun css hcss => ⟨fun v hv => ?_, fun hv => ?_⟩, fun h => ?_⟩
  · simp [Swal.get_transition_duration, h]
  · simp [Swal.get_transition_duration, hbeq, hcss, hv]
  · simp [Swal.get_transition_duration, hbeq, hcss, hv]
  · simp [Swal.get_transition_duration, hbeq, h]

/-- C5, counterexample to the claim as stated: with an uncomputed cell and
a readable two-transition style `"0.3s, 0.5s"` (whose stripped form
`"0.3s, 0.5"` is not a number), `get_transition_duration` panics (`none`);
it does not return duration `0`. -/
theorem C5_counterexample :
    Swal.get_transition_duration (Except.ok "0.3s, 0.5s") durNegOne = none := by
  decide

/-- C5, witness: the three provable branches evaluated at concrete inputs:
a memoized cell `2`, a parsable style `"0.5s"`, and a failed style read. -/
theorem C5_witness :
    Swal.get_transition_duration (Except.ok "0.5s") (Dur.ofInt 2) =
      some (Dur.ofInt 2, Dur.ofInt 2) ∧
    Swal.get_transition_duration (Except.ok "0.5s") durNegOne =
      some (⟨5, 10⟩, ⟨5, 10⟩) ∧
    Swal.get_transition_duration (Except.error ()) durNegOne =
      some (Dur.ofInt 0, durNegOne) :=
  ⟨(C5_get_duration (Except.ok "0.5s") (Dur.ofInt 2)).1 (by decide),
   ((C5_get_duration (Except.ok "0.5s") durNegOne).2.1 "0.5s" rfl).1 ⟨5, 10⟩ (by decide),
   (C5_get_duration (Except.error ()) durNegOne).2.2 rfl⟩

/-! ## Claim C1 -/

/-- C1: `close(None)` never invokes the stored `then` callback;
`close(Some r)` with a stored callback `f` invokes `f` exactly once with
exactly `r`; and whenever a callback was stored, the call clears the
callback slot and resets the auto-close flag to its default `true`. -/
theorem C1_close_dispatch (style : Except Unit String) (s : St) (r : SwalResult)
    (f : Nat) :
    ((Swal.close style none s).trace.filter isThenCall = []) ∧
    (s.then_callback = some f →
      (Swal.close style (some r) s).trace.filter isThenCall = [Ev.thenCall f r]) ∧
    (∀ result, s.then_callback = some f →
      (Swal.close style result s).st.then_callback = none ∧
      (Swal.close style result s).st.auto_close = true) := by
  refine ⟨?_, fun h => ?_, fun result h => ?_⟩
  · have htr : (Swal.close style none s).trace = (Swal.closeDispatch none s).2 ++
        (Swal.closeHide style (Swal.closeDispatch none s).1).trace := by
      simp [Swal.close]
    have hdp : (Swal.closeDispatch none s).2 = [] := by
      cases hc : s.then_callback with
      | none => simp [Swal.closeDispatch, hc]
      | some g => simp [Swal.closeDispatch, hc]
    rw [htr, List.filter_append, hdp]
    simp [closeHide_no_thenCall]
  · have htr : (Swal.close style (some r) s).trace =
        (Swal.closeDispatch (some r) s).2 ++
        (Swal.closeHide style (Swal.closeDispatch (some r) s).1).trace := by
      simp [Swal.close]
    rw [htr, List.filter_append, closeDispatch_some_cb (some r) s f h]
    simp [closeHide_no_thenCall, isThenCall]
  · have hst : (Swal.close style result s).st =
        (Swal.closeHide style (Swal.closeDispatch result s).1).st := by
      simp [Swal.close]
    rw [hst, closeDispatch_some_cb result s f h]
    have h1 := (closeHide_cells style { s with then_callback := none, auto_close := true }).1
    have h2 := (closeHide_cells style { s with then_callback := none, auto_close := true }).2
    constructor
    · simpa using h1
    · simpa using h2

/-- C1, witness: on the state reached by `fire(optA)` (callback tag `1`
stored), `close(Some denied)` dispatches `thenCall 1 denied` exactly once,
and `close(None)` clears the slot and resets auto-close. -/
theorem C1_witness :
    ((Swal.close styleA (some SwalResult.denied) sOpenA).trace.filter isThenCall =
      [Ev.thenCall 1 SwalResult.denied]) ∧
    (Swal.close styleA none sOpenA).st.then_callback = none ∧
    (Swal.close styleA none sOpenA).st.auto_close = true :=
  ⟨(C1_close_dispatch styleA sOpenA SwalResult.denied 1).2.1 (by decide),
   ((C1_close_dispatch styleA sOpenA SwalResult.denied 1).2.2 none (by decide)).1,
   ((C1_close_dispatch styleA sOpenA SwalResult.denied 1).2.2 none (by decide)).2⟩

/-! ## Claim C3 -/

/-- C3 (amended): if no popup is mounted and no `then` callback is stored
when `close(result)` is called, it returns `false`, changes no state and
invokes no callback.  Without the no-stored-callback condition the claim
fails: a stale detach timer can remove a remounted popup, leaving a stored
callback with no popup mounted, and `close(Some r)` then still returns
`false` but dispatches and clears the callback (see the counterexample). -/
theorem C3_close_unmounted (style : Except Unit String) (result : Option SwalResult)
    (s : St) (h1 : s.popups = []) (h2 : s.then_callback = none) :
    Swal.close style result s = { ret := some false, st := s, trace := [] } :=
  close_unmounted_eq style result s h1 h2

/-- C3, counterexample to the claim as stated: after `fire(optA)`,
`close(None)`, `fire(optB)` (all at time `0`), a second `close(None)` at
time `0.03`, and the five timers that follow, the stale second detach
timer (due `1.03`) has removed `optB`'s popup — mounted at `1.01`, never
closed — while `optB`'s callback (tag `2`) is still stored.  In that
state, with no popup mounted, `close(Some confirmed)` returns `false` yet
invokes the stored callback and clears the slot, contradicting "no state
change" and "no callback is invoked". -/
theorem C3_counterexample :
    c3_s9.popups = [] ∧
    (Swal.close styleA (some SwalResult.confirmed) c3_s9).ret = some false ∧
    (Swal.close styleA (some SwalResult.confirmed) c3_s9).trace =
      [Ev.thenCall 2 SwalResult.confirmed] ∧
    c3_s9.then_callback = some 2 ∧
    (Swal.close styleA (some SwalResult.confirmed) c3_s9).st.then_callback = none := by
  decide

/-- C3, witness: on a fresh process (nothing mounted, no callback stored),
`close(Some confirmed)` returns `false` and is a no-op. -/
theorem C3_witness :
    Swal.close styleA (some SwalResult.confirmed) initSt =
      { ret := some false, st := initSt, trace := [] } :=
  C3_close_unmounted styleA (some SwalResult.confirmed) initSt rfl rfl

/-! ## Claim C4 -/

/-- C4 (amended): once the popup has actually been detached (no popup
mounted, no callback stored), every subsequent `close` call returns `false`
and leaves the state unchanged, until another `fire` occurs.  Immediately
after a successful `close`, while the hide transition is still playing and
the detach timer has not yet run, a further `close` still returns `true`
(see the counterexample). -/
theorem C4_closed_stays_closed (style : Except Unit String) (s : St)
    (h1 : s.popups = []) (h2 : s.then_callback = none)
    (rs : List (Option SwalResult)) :
    (∀ b ∈ (closeSeq style rs s).1, b = some false) ∧ (closeSeq style rs s).2 = s := by
  induction rs with
  | nil => simp [closeSeq]
  | cons r rest ih =>
    have hc := close_unmounted_eq style r s h1 h2
    have hun : closeSeq style (r :: rest) s =
        (some false :: (closeSeq style rest s).1, (closeSeq style rest s).2) := by
      simp [closeSeq, hc]
    rw [hun]
    refine ⟨?_, ih.2⟩
    intro b hb
    rcases List.mem_cons.mp hb with hb | hb
    · exact hb
    · exact ih.1 b hb

/-- C4, counterexample to the claim as stated: `fire(optA)` then
`close(Some confirmed)` succeeds (`true`), and an immediately following
`close(None)` — before the detach timer due at time `1` has run — returns
`true` again, not `false`. -/
theorem C4_counterexample :
    (Swal.close styleA (some SwalResult.confirmed) sOpenA).ret = some true ∧
    (Swal.close styleA none
        (Swal.close styleA (some SwalResult.confirmed) sOpenA).st).ret = some true := by
  decide

/-- C4, witness: from the detached state, a run of two further `close`
calls returns `false` both times and moves nothing. -/
theorem C4_witness :
    (∀ b ∈ (closeSeq styleA [some SwalResult.confirmed, none] initSt).1, b = some false) ∧
    (closeSeq styleA [some SwalResult.confirmed, none] initSt).2 = initSt :=
  C4_closed_stays_closed styleA initSt rfl rfl [some SwalResult.confirmed, none]

/-! ## Claim C6 -/

/-- C6 (amended): when a popup is mounted, `fire(opt)` mounts nothing
synchronously and schedules the new `open` at exactly `0.01` seconds plus
the displayed popup's transition duration; with no popup mounted,
`open(opt)` runs immediately.  The "at most one popup node at any time"
consequence does not hold unconditionally: if the displayed popup is never
closed, the scheduled `open` mounts a second node (last conjunct and the
counterexample). -/
theorem C6_fire_schedule (style : Except Unit String) (opt : SwalOptions) (s : St) :
    (s.popups = [] →
      Swal.fire style opt s =
        { ret := some (), st := Swal.openPopup opt s, trace := [] }) ∧
    (∀ p rest, s.popups = p :: rest →
      ∀ d c, Swal.get_transition_duration style s.transition_duration = some (d, c) →
        (Swal.fire style opt s).ret = some () ∧
        (Swal.fire style opt s).st.popups = s.popups ∧
        (Swal.fire style opt s).st.pending = s.pending ++
          [{ time := s.now.add (durCentisec.add d), task := Task.openTask opt }]) ∧
    c6_s4.popups.length = 2 := by
  refine ⟨fun h => ?_, fun p rest hp d c hd => ?_, by decide⟩
  · simp [Swal.fire, Swal.get_swal, h]
  · refine ⟨?_, ?_, ?_⟩ <;> simp [Swal.fire, Swal.get_swal, hp, hd]

/-- C6, counterexample to the "at most one popup node" consequence:
`fire(optA)` at time `0`, `fire(optB)` at time `0` (popup `A` mounted and
never closed), then the two timers; at time `1.01` the deferred
`open(optB)` appends a second `#swal` node, so two popup nodes are
attached at once. -/
theorem C6_counterexample : c6_s4.popups.length = 2 := by decide

/-- C6, witness: an immediate open on a fresh process, and the deferred
open scheduled at exactly `0 + (0.01 + 1)` seconds while `optA`'s popup
(transition duration `1s`) is displayed. -/
theorem C6_witness :
    Swal.fire styleA optA initSt =
      { ret := some (), st := Swal.openPopup optA initSt, trace := [] } ∧
    (Swal.fire styleA optB sOpenA).st.pending = sOpenA.pending ++
      [{ time := sOpenA.now.add (durCentisec.add (Dur.ofInt 1)),
         task := Task.openTask optB }] :=
  ⟨(C6_fire_schedule styleA optA initSt).1 rfl,
   ((C6_fire_schedule styleA optB sOpenA).2.1 { ariaHidden := true, opt := optA } []
      (by decide) (Dur.ofInt 1) (Dur.ofInt 1) (by decide)).2.2⟩

/-! ## Claim C7 -/

/-- Full computation of `close` on a mounted popup with a stored callback
and a computable transition duration. -/
theorem close_mounted_some_cb (style : Except Unit String)
    (result : Option SwalResult) (s : St) (p : Popup) (rest : List Popup)
    (f : Nat) (d c : Dur)
    (hp : s.popups = p :: rest) (hf : s.then_callback = some f)
    (hd : Swal.get_transition_duration style s.transition_duration = some (d, c)) :
    Swal.close style result s =
      { ret := some true
        st := { s with
          then_callback := none
          auto_close := true
          popups := { p with ariaHidden := true } :: rest
          transition_duration := c
          pending := s.pending ++ [{ time := s.now.add d, task := Task.removeTask }] }
        trace := (match result with
          | some r => [Ev.thenCall f r]
          | none => []) ++ [Ev.hideStart] } := by
  have h1 := closeDispatch_some_cb result s f hf
  have h2 := closeHide_mounted style { s with then_callback := none, auto_close := true }
    p rest d c (by simpa using hp) (by simpa using hd)
  simp [Swal.close, h1, h2]

/-- C7: while a popup is mounted with a stored `then` callback `f` and a
computable transition duration, an Escape keydown with auto-close enabled
closes the popup — `f` receives `canceled(Esc)` before the hide transition
starts, and the detach is scheduled after the transition duration — while
with auto-close disabled the keydown leaves everything unchanged. -/
theorem C7_escape_key (style : Except Unit String) (s : St) (p : Popup)
    (rest : List Popup) (f : Nat) (d c : Dur)
    (hp : s.popups = p :: rest)
    (hf : s.then_callback = some f)
    (hd : Swal.get_transition_duration style s.transition_duration = some (d, c)) :
    (s.auto_close = true →
      Swal.escape_key_handler style "Escape" s =
        { ret := some ()
          st := { s with
            then_callback := none
            auto_close := true
            popups := { p with ariaHidden := true } :: rest
            transition_duration := c
            pending := s.pending ++ [{ time := s.now.add d, task := Task.removeTask }] }
          trace := [Ev.thenCall f (SwalResult.canceled SwalDismissReason.Esc),
            Ev.hideStart] }) ∧
    (s.auto_close = false →
      Swal.escape_key_handler style "Escape" s =
        { ret := some (), st := s, trace := [] }) := by
  have hopen : Swal.is_swal_open s = true := by
    simp [Swal.is_swal_open, Swal.get_swal, hp]
  constructor
  · intro ha
    have hc := close_mounted_some_cb style
      (some (SwalResult.canceled SwalDismissReason.Esc)) s p rest f d c hp hf hd
    simp [Swal.escape_key_handler, hopen, ha, hc]
  · intro ha
    simp [Swal.escape_key_handler, hopen, ha]

/-- C7, witness: on the state reached by `fire(optA)` (auto-close on, then
callback tag `1`, duration `1s`), an Escape keydown dispatches
`canceled(Esc)` and schedules the detach; with auto-close forced off, the
same keydown is a no-op. -/
theorem C7_witness :
    Swal.escape_key_handler styleA "Escape" sOpenA =
      { ret := some ()
        st := { sOpenA with
          then_callback := none
          auto_close := true
          popups := [{ ariaHidden := true, opt := optA }]
          transition_duration := Dur.ofInt 1
          pending := sOpenA.pending ++
            [{ time := sOpenA.now.add (Dur.ofInt 1), task := Task.removeTask }] }
        trace := [Ev.thenCall 1 (SwalResult.canceled SwalDismissReason.Esc),
          Ev.hideStart] } ∧
    Swal.escape_key_handler styleA "Escape" { sOpenA with auto_close := false } =
      { ret := some (), st := { sOpenA with auto_close := false }, trace := [] } :=
  ⟨(C7_escape_key styleA sOpenA { ariaHidden := true, opt := optA } [] 1
      (Dur.ofInt 1) (Dur.ofInt 1) (by decide) (by decide) (by decide)).1 (by decide),
   (C7_escape_key styleA { sOpenA with auto_close := false }
      { ariaHidden := true, opt := optA } [] 1
      (Dur.ofInt 1) (Dur.ofInt 1) (by decide) (by decide) (by decide)).2 (by decide)⟩

/-! ## Claim C2 -/

/-- The cancel handler with auto-close off: dispatch only, no close. -/
theorem on_cancel_no_autoclose (style : Except Unit String) (opt : SwalOptions)
    (s : St) (h : opt.auto_close = false) :
    Swal.on_cancel style opt s =
      { ret := some (), st := s,
        trace := [Ev.thenCall opt.thenFn (SwalResult.canceled SwalDismissReason.Cancel)] } := by
  simp [Swal.on_cancel, h]

/-- C2 (amended): a confirm click always runs `pre_confirm` first; only
when `auto_close` is set does it then invoke `then` with `confirmed()` and
call `close` (so `then` precedes the start of the hide transition); with
`auto_close` unset it stops after `pre_confirm`, leaving the state
untouched.  The deny path is analogous with `pre_deny`/`denied()`.  A
cancel click invokes `then` with `canceled(Cancel)` unconditionally, and
calls `close` (hide transition, only then) exactly when `auto_close` is
set. -/
theorem C2_button_handlers (style : Except Unit String) (opt : SwalOptions) (s : St) :
    ((Swal.on_confirm style opt s).trace.head? =
      some (Ev.preConfirmCall opt.pre_confirm)) ∧
    (opt.auto_close = true →
      (Swal.on_confirm style opt s).trace =
        [Ev.preConfirmCall opt.pre_confirm, Ev.thenCall opt.thenFn SwalResult.confirmed] ∨
      (Swal.on_confirm style opt s).trace =
        [Ev.preConfirmCall opt.pre_confirm, Ev.thenCall opt.thenFn SwalResult.confirmed,
          Ev.hideStart]) ∧
    (opt.auto_close = false →
      Swal.on_confirm style opt s =
        { ret := some (), st := s, trace := [Ev.preConfirmCall opt.pre_confirm] }) ∧
    ((Swal.on_deny style opt s).trace.head? = some (Ev.preDenyCall opt.pre_deny)) ∧
    (opt.auto_close = true →
      (Swal.on_deny style opt s).trace =
        [Ev.preDenyCall opt.pre_deny, Ev.thenCall opt.thenFn SwalResult.denied] ∨
      (Swal.on_deny style opt s).trace =
        [Ev.preDenyCall opt.pre_deny, Ev.thenCall opt.thenFn SwalResult.denied,
          Ev.hideStart]) ∧
    (opt.auto_close = false →
      Swal.on_deny style opt s =
        { ret := some (), st := s, trace := [Ev.preDenyCall opt.pre_deny] }) ∧
    ((Swal.on_cancel style opt s).trace.head? =
      some (Ev.thenCall opt.thenFn (SwalResult.canceled SwalDismissReason.Cancel))) ∧
    (opt.auto_close = true →
      (Swal.on_cancel style opt s).trace =
        [Ev.thenCall opt.thenFn (SwalResult.canceled SwalDismissReason.Cancel)] ∨
      (Swal.on_cancel style opt s).trace =
        [Ev.thenCall opt.thenFn (SwalResult.canceled SwalDismissReason.Cancel),
          Ev.hideStart]) ∧
    (opt.auto_close = false →
      Swal.on_cancel style opt s =
        { ret := some (), st := s,
          trace := [Ev.thenCall opt.thenFn (SwalResult.canceled SwalDismissReason.Cancel)] }) := by
  have hct := close_none_trace style s
  refine ⟨?_, fun ha => ?_, fun ha => ?_, ?_, fun ha => ?_, fun ha => ?_, ?_,
    fun ha => ?_, fun ha => ?_⟩
  · cases ha : opt.auto_close <;> simp [Swal.on_confirm, ha]
  · rcases hct with h | h
    · exact Or.inl (by simp [Swal.on_confirm, ha, h])
    · exact Or.inr (by simp [Swal.on_confirm, ha, h])
  · simp [Swal.on_confirm, ha]
  · cases ha : opt.auto_close <;> simp [Swal.on_deny, ha]
  · rcases hct with h | h
    · exact Or.inl (by simp [Swal.on_deny, ha, h])
    · exact Or.inr (by simp [Swal.on_deny, ha, h])
  · simp [Swal.on_deny, ha]
  · cases ha : opt.auto_close <;> simp [Swal.on_cancel, ha]
  · rcases hct with h | h
    · exact Or.inl (by simp [Swal.on_cancel, ha, h])
    · exact Or.inr (by simp [Swal.on_cancel, ha, h])
  · exact on_cancel_no_autoclose style opt s ha

/-- C2, counterexample to the claim as stated: on the popup fired from
`optNC` (`auto_close = false`), a confirm click runs `pre_confirm` (tag
`9`) but invokes no `then` callback at all — the claim requires every
confirm click to produce the `confirmed()` result. -/
theorem C2_counterexample :
    (Swal.on_confirm styleA optNC sOpenNC).trace = [Ev.preConfirmCall 9] ∧
    (Swal.on_confirm styleA optNC sOpenNC).trace.filter isThenCall = [] ∧
    Swal.is_swal_open sOpenNC = true := by
  decide

/-- C2, witness: with auto-close on, a confirm click on `optA`'s popup
dispatches `pre_confirm` then `then(confirmed())` then the hide start; with
auto-close off, a cancel click on `optNC`'s popup dispatches
`then(canceled(Cancel))` and leaves the popup open. -/
theorem C2_witness :
    ((Swal.on_confirm styleA optA sOpenA).trace =
        [Ev.preConfirmCall 0, Ev.thenCall 1 SwalResult.confirmed] ∨
      (Swal.on_confirm styleA optA sOpenA).trace =
        [Ev.preConfirmCall 0, Ev.thenCall 1 SwalResult.confirmed, Ev.hideStart]) ∧
    Swal.on_cancel styleA optNC sOpenNC =
      { ret := some (), st := sOpenNC,
        trace := [Ev.thenCall 7 (SwalResult.canceled SwalDismissReason.Cancel)] } :=
  ⟨(C2_button_handlers styleA optA sOpenA).2.1 rfl,
   (C2_button_handlers styleA optNC sOpenNC).2.2.2.2.2.2.2.2 rfl⟩

/-! ## Claim C10 -/

/-- C10: with `auto_close = false`, every cancel click invokes the `then`
callback once with `canceled(Cancel)` while leaving the state — including
the mounted popup — unchanged, so `n` clicks produce exactly `n`
invocations: dispatch on the cancel path happens once per click, not once
per alert lifetime. -/
theorem C10_cancel_each_click (style : Except Unit String) (opt : SwalOptions)
    (s : St) (n : Nat) (h : opt.auto_close = false) :
    (cancelClicks style opt n s).1 = s ∧
    (cancelClicks style opt n s).2 =
      List.replicate n (Ev.thenCall opt.thenFn (SwalResult.canceled SwalDismissReason.Cancel)) ∧
    Swal.is_swal_open (cancelClicks style opt n s).1 = Swal.is_swal_open s := by
  induction n with
  | zero => simp [cancelClicks]
  | succ m ih =>
    have hc := on_cancel_no_autoclose style opt s h
    refine ⟨?_, ?_, ?_⟩
    · simp [cancelClicks, hc, ih.1]
    · simp [cancelClicks, hc, ih.2.1, List.replicate_succ]
    · simp [cancelClicks, hc, ih.1]

/-- C10, witness: three cancel clicks on `optNC`'s open popup produce three
`canceled(Cancel)` dispatches and leave the popup open. -/
theorem C10_witness :
    (cancelClicks styleA optNC 3 sOpenNC).1 = sOpenNC ∧
    (cancelClicks styleA optNC 3 sOpenNC).2 =
      List.replicate 3 (Ev.thenCall 7 (SwalResult.canceled SwalDismissReason.Cancel)) :=
  ⟨(C10_cancel_each_click styleA optNC sOpenNC 3 rfl).1,
   (C10_cancel_each_click styleA optNC sOpenNC 3 rfl).2.1⟩

end LeptosSweetalert
